import Mathlib

/-!
Verification development for the KC868-AP MicroPython control firmware
(`main.py`, `hardware.py`, `mqtt_manager.py`).

The runtime control core is shallowly embedded: Python dicts become
association lists over `String` keys (`PyDict`), Python ints become `Int`
(`Nat` where the source guarantees non-negativity), exceptions become
explicit error values that are threaded so that mutations performed before
a raise persist (as they do on the real hardware), and the I2C register
writes of the PCA9685 / relay pins become fields of a `Hardware` record.
-/

set_option maxHeartbeats 1000000

namespace KC868

/-! ### Python dict embedding

A Python dict is modelled as an association list in insertion order with
unique keys.  `dget?` is `d.get(k)` / `d[k]`-lookup, `dset` is
`d[k] = v` (update in place if the key exists, append otherwise),
`dupdate` is `d.update(other)`, and `pyDictEq` is Python `==` on dicts
(key-set and value equality, order-independent). -/

abbrev PyDict (α : Type) := List (String × α)

def dget? {α : Type} : PyDict α → String → Option α
  | [], _ => none
  | (k', v) :: rest, k => if k' = k then some v else dget? rest k

def dset {α : Type} : PyDict α → String → α → PyDict α
  | [], k, v => [(k, v)]
  | (k', v') :: rest, k, v =>
    if k' = k then (k, v) :: rest else (k', v') :: dset rest k v

def dupdate {α : Type} (d other : PyDict α) : PyDict α :=
  other.foldl (fun acc kv => dset acc kv.1 kv.2) d

def pyDictEq {α : Type} [DecidableEq α] (a b : PyDict α) : Bool :=
  (a.map Prod.fst).all (fun k => decide (dget? a k = dget? b k)) &&
  (b.map Prod.fst).all (fun k => decide (dget? a k = dget? b k))

theorem dget_dset_self {α : Type} (d : PyDict α) (k : String) (v : α) :
    dget? (dset d k v) k = some v := by
  induction d with
  | nil => simp [dset, dget?]
  | cons hd rest ih =>
    obtain ⟨k', v'⟩ := hd
    by_cases h : k' = k
    · simp [dset, dget?, h]
    · simp [dset, dget?, h, ih]

theorem dget_dset_of_ne {α : Type} (d : PyDict α) {k k' : String}
    (h : k' ≠ k) (v : α) : dget? (dset d k v) k' = dget? d k' := by
  have h2 : ¬(k = k') := fun e => h e.symm
  induction d with
  | nil => simp [dset, dget?, h2]
  | cons hd rest ih =>
    obtain ⟨k₀, v₀⟩ := hd
    by_cases h₀ : k₀ = k
    · subst h₀
      simp [dset, dget?, h2]
    · by_cases h₁ : k₀ = k'
      · subst h₁
        simp [dset, dget?, h₀]
      · simp [dset, dget?, h₀, h₁, ih]

theorem dget_eq_none_of_not_mem {α : Type} {d : PyDict α} {k : String}
    (h : k ∉ d.map Prod.fst) : dget? d k = none := by
  induction d with
  | nil => rfl
  | cons hd rest ih =>
    obtain ⟨k', v'⟩ := hd
    simp only [List.map_cons, List.mem_cons] at h
    push_neg at h
    have h1 : ¬(k' = k) := fun e => h.1 e.symm
    simp [dget?, h1, ih h.2]

theorem dget_dupdate {α : Type} (d : PyDict α) (cur : PyDict α)
    (hnd : (cur.map Prod.fst).Nodup) (k : String) :
    dget? (dupdate d cur) k = (dget? cur k <|> dget? d k) := by
  induction cur generalizing d with
  | nil => simp [dupdate, dget?]
  | cons hd rest ih =>
    obtain ⟨k₀, v₀⟩ := hd
    simp only [List.map_cons, List.nodup_cons] at hnd
    have step : dupdate d ((k₀, v₀) :: rest) = dupdate (dset d k₀ v₀) rest := rfl
    rw [step, ih (dset d k₀ v₀) hnd.2]
    by_cases h : k₀ = k
    · subst h
      have : dget? rest k₀ = none := dget_eq_none_of_not_mem hnd.1
      simp [dget?, this, dget_dset_self]
    · simp [dget?, h, dget_dset_of_ne d (fun h' => h h'.symm) v₀]

/-! ### Python string helpers

MicroPython string operations used by the core, modelled on `List Char`.
`pyUpper` is `str.upper()` restricted to ASCII (the payload comparisons
are against the ASCII literals "ON"/"OFF"), `stripPWM` is
`s.replace("PWM", "")` (leftmost, non-overlapping, no rescan — the same
semantics as Python `str.replace`), and `pyInt?` is `int(s)` for the
decimal strings this firmware receives (optional surrounding whitespace,
optional sign, decimal digits; digit-group underscores are not modelled). -/

def pyUpper (s : String) : String := String.mk (s.data.map Char.toUpper)

def listPrefixOf : List Char → List Char → Bool
  | [], _ => true
  | _ :: _, [] => false
  | a :: as, b :: bs => a == b && listPrefixOf as bs

def pyStartsWith (s pre : String) : Bool := listPrefixOf pre.data s.data

def stripPWM : List Char → List Char
  | 'P' :: 'W' :: 'M' :: rest => stripPWM rest
  | c :: rest => c :: stripPWM rest
  | [] => []

def isPySpace (c : Char) : Bool :=
  c == ' ' || c == '\t' || c == '\n' || c == '\r' || c == '\x0b' || c == '\x0c'

def pyStrip (l : List Char) : List Char :=
  ((l.dropWhile isPySpace).reverse.dropWhile isPySpace).reverse

def decDigits? (l : List Char) : Option Nat :=
  if l ≠ [] ∧ l.all Char.isDigit then
    some (l.foldl (fun a c => a * 10 + (c.toNat - 48)) 0)
  else none

def pyInt? (s : String) : Option Int :=
  match pyStrip s.data with
  | '+' :: r => (decDigits? r).map (fun n => (n : Int))
  | '-' :: r => (decDigits? r).map (fun n => -(n : Int))
  | r => (decDigits? r).map (fun n => (n : Int))

/-- Key `f"PWM{i}"` used by `StateManager` / the MQTT dimmer handler. -/
def pwmKey (i : Int) : String := "PWM" ++ toString i

/-- Key `f"X{n:02d}"` used by `HardwareManager.get_input_states`. -/
def xKey (n : Nat) : String :=
  "X" ++ (if n < 10 then "0" ++ toString n else toString n)

/-- Key `f"Relay{i}"` used by the MQTT relay handler. -/
def relayKey (i : Int) : String := "Relay" ++ toString i

/-! ### Hardware layer (`hardware.py`)

The PCA9685 duty registers and the two relay GPIO pins become record
fields; an I2C register write becomes a field update.  The devices are
assumed present and the bounded-retry `_retry_operation` wrapper to have
succeeded (`is_valid = True`, no `HardwareError`), which is the regime
every claim addresses.  A Python exception raised by a hardware call is
returned as `some msg` in the second component while the first component
carries whatever mutations happened before the raise. -/

structure Hardware where
  /-- `LEDn_ON` register pair per channel (`set_pwm` argument `on`). -/
  pwm_on : Int → Nat
  /-- `LEDn_OFF` register pair per channel (`set_pwm` argument `off`):
  the effective PWM duty value. -/
  pwm_off : Int → Nat
  /-- GPIO value of `relay1_pin` (0 or 1). -/
  relay1_pin : Nat
  /-- GPIO value of `relay2_pin` (0 or 1). -/
  relay2_pin : Nat
  /-- `RelayController.states`. -/
  relay_states : PyDict Bool

/-- `PCA9685.set_pwm(channel, on, off)`.  The `on`/`off` arguments are
`Nat` because every caller passes non-negative values (`0` and the
clamped pulse); the upper-bound check of the source is kept. -/
def set_pwm (hw : Hardware) (channel : Int) (onv offv : Nat) :
    Hardware × Option String :=
  if 0 ≤ channel ∧ channel ≤ 15 then
    if onv ≤ 4095 ∧ offv ≤ 4095 then
      ({ hw with pwm_on := Function.update hw.pwm_on channel onv,
                 pwm_off := Function.update hw.pwm_off channel offv }, none)
    else (hw, some "PWM values must be between 0 and 4095")
  else (hw, some "Channel must be between 0 and 15")

/-- `PCA9685.set_level(channel, level_percent)`.  The source computes
`pulse = int(level_percent * 4095 / 100)` on a clamped non-negative
`level_percent ≤ 100`: the float quotient is exactly representable
whenever it is an integer and otherwise at distance ≥ 0.05 from any
integer, so `int` (truncation toward zero) of the float equals natural
floor division of the exact product. -/
def set_level (hw : Hardware) (channel : Int) (level_percent : Int) :
    Hardware × Option String :=
  if 0 ≤ channel ∧ channel ≤ 15 then
    let lp := max 0 (min 100 level_percent)
    let pulse := lp.toNat * 4095 / 100
    set_pwm hw channel 0 pulse
  else (hw, some "Channel must be between 0 and 15")

/-- `RelayController.set_relay(relay_name, state)`. -/
def set_relay (hw : Hardware) (relay_name : String) (state : Bool) :
    Hardware × Option String :=
  if (dget? hw.relay_states relay_name).isSome then
    ({ hw with
        relay1_pin := if relay_name = "Relay1" then (if state then 1 else 0)
          else hw.relay1_pin,
        relay2_pin := if relay_name = "Relay2" then (if state then 1 else 0)
          else hw.relay2_pin,
        relay_states := dset hw.relay_states relay_name state }, none)
  else (hw, some ("Invalid relay name: " ++ relay_name))

/-- `RelayController.toggle_relay(relay_name)`: flips the stored state,
drives the pin, and returns the new state. -/
def toggle_relay (hw : Hardware) (relay_name : String) :
    Hardware × Except String Bool :=
  match dget? hw.relay_states relay_name with
  | none => (hw, .error ("Invalid relay name: " ++ relay_name))
  | some cur =>
    match set_relay hw relay_name (!cur) with
    | (hw1, some msg) => (hw1, .error msg)
    | (hw1, none) => (hw1, .ok (!cur))

/-- `HardwareManager.get_input_states()`: each PCF8574 expander, when
valid and when its byte read succeeded, contributes 8 entries
`f"X{i+1:02d}" ↦ not bool(data & (1 << i))` (resp. `i+9` for the second
expander). -/
def get_input_states (pcf1_valid : Bool) (pcf1_data : Option Nat)
    (pcf2_valid : Bool) (pcf2_data : Option Nat) : PyDict Bool :=
  let s1 : PyDict Bool :=
    if pcf1_valid then
      match pcf1_data with
      | some d => (List.range 8).map (fun i => (xKey (i + 1), !(d &&& (1 <<< i) != 0)))
      | none => []
    else []
  let s2 : PyDict Bool :=
    if pcf2_valid then
      match pcf2_data with
      | some d => (List.range 8).map (fun i => (xKey (i + 9), !(d &&& (1 <<< i) != 0)))
      | none => []
    else []
  s1 ++ s2

/-- `RelayController.__init__`: both relays off, pins driven low;
PCA9685 duty registers taken as zero at power-on. -/
def initHardware : Hardware :=
  { pwm_on := fun _ => 0
    pwm_off := fun _ => 0
    relay1_pin := 0
    relay2_pin := 0
    relay_states := [("Relay1", false), ("Relay2", false)] }

/-! ### `StateManager` (`main.py`)

The `last_update` timestamp field is not modelled (wall-clock time).
Mutators return `some msg` alongside the (partially) updated record when
the Python method raises `ValueError`; the source raises before touching
any field, so the record is returned unchanged in that case. -/

structure StateManagerT where
  dimmer_levels : PyDict Int
  last_non_zero_levels : PyDict Int
  relay_states : PyDict Bool
  input_states : PyDict Bool
  deriving DecidableEq

/-- `StateManager.__init__`. -/
def initStateManager : StateManagerT :=
  { dimmer_levels := (List.range 16).map (fun i => (pwmKey i, (0 : Int)))
    last_non_zero_levels := (List.range 16).map (fun i => (pwmKey i, (100 : Int)))
    relay_states := [("Relay1", false), ("Relay2", false)]
    input_states := [] }

/-- The dict returned by `StateManager.get_state()` (timestamp omitted). -/
structure Snapshot where
  dimmers : PyDict Int
  relays : PyDict Bool
  inputs : PyDict Bool
  deriving DecidableEq

/-- `StateManager.get_state()`. -/
def get_state (st : StateManagerT) : Snapshot :=
  { dimmers := st.dimmer_levels
    relays := st.relay_states
    inputs := st.input_states }

/-- `StateManager.update_dimmer(channel, level)`. -/
def update_dimmer (st : StateManagerT) (channel : String) (level : Int) :
    StateManagerT × Option String :=
  if 0 ≤ level ∧ level ≤ 100 then
    ({ st with
        dimmer_levels := dset st.dimmer_levels channel level,
        last_non_zero_levels :=
          if 0 < level then dset st.last_non_zero_levels channel level
          else st.last_non_zero_levels }, none)
  else (st, some "Dimmer level must be between 0 and 100")

/-- `StateManager.update_relay(relay_name, state)` (`bool(state)` is the
identity here because every caller passes a `Bool`). -/
def update_relay (st : StateManagerT) (relay_name : String) (state : Bool) :
    StateManagerT × Option String :=
  if (dget? st.relay_states relay_name).isSome then
    ({ st with relay_states := dset st.relay_states relay_name state }, none)
  else (st, some ("Invalid relay name: " ++ relay_name))

/-- `StateManager.update_inputs(inputs)`: `self.input_states.update(inputs)`. -/
def update_inputs (st : StateManagerT) (inputs : PyDict Bool) : StateManagerT :=
  { st with input_states := dupdate st.input_states inputs }

/-! ### Combined system state -/

/-- The pieces of mutable state the command paths touch:
`self.state_manager` and `self.hardware_manager` (PCA9685 + relays). -/
structure Sys where
  state : StateManagerT
  hw : Hardware

/-- System state right after `KC868Application.__init__` +
`HardwareManager` initialization. -/
def initSys : Sys := { state := initStateManager, hw := initHardware }

/-! ### `CommandProcessor` (`main.py`)

A direct structured command `{type, channel, value}`.  Absent dict keys
are `none` (`command.get(...)` returns `None`); `value` is modelled as
already converted by `int(...)`. -/

structure Command where
  type : Option String
  channel : Option String
  value : Option Int
  deriving DecidableEq

/-- Channel validation of `_handle_dimmer_command`: `not channel or not
channel.startswith('PWM')` raises, then
`channel_num = int(channel.replace('PWM', ''))` (a parse failure also
raises).  `none` is returned in every raising case. -/
def parse_channel_num (channel : Option String) : Option Int :=
  match channel with
  | none => none
  | some ch =>
    if pyStartsWith ch "PWM" then pyInt? (String.mk (stripPWM ch.data))
    else none

/-- The `set_level` + `update_dimmer` pair of `_handle_dimmer_command`
(also performed, with the canonical key, by the MQTT dimmer branch): the
hardware write happens first, and persists even when the state update
then raises. -/
def set_dimmer_pair (sys : Sys) (channel_num : Int) (key : String)
    (value : Int) : Sys × Option String :=
  match set_level sys.hw channel_num value with
  | (hw1, some msg) => ({ sys with hw := hw1 }, some msg)
  | (hw1, none) =>
    match update_dimmer sys.state key value with
    | (st1, e2) => ({ state := st1, hw := hw1 }, e2)

/-- `CommandProcessor._handle_dimmer_command(command)`. -/
def handle_dimmer_command (sys : Sys) (cmd : Command) : Sys × Option String :=
  let value := cmd.value.getD 0
  match parse_channel_num cmd.channel with
  | none => (sys, some "Invalid dimmer channel")
  | some channel_num =>
    if 0 ≤ channel_num ∧ channel_num ≤ 15 then
      set_dimmer_pair sys channel_num (cmd.channel.getD "") value
    else (sys, some "Dimmer channel must be between 0 and 15")

/-- `CommandProcessor._handle_relay_command(command)`. -/
def handle_relay_command (sys : Sys) (cmd : Command) : Sys × Option String :=
  match cmd.channel with
  | none => (sys, some "Invalid relay channel: None")
  | some ch =>
    if (dget? sys.state.relay_states ch).isSome then
      match toggle_relay sys.hw ch with
      | (hw1, .error msg) => ({ sys with hw := hw1 }, some msg)
      | (hw1, .ok new_state) =>
        match update_relay sys.state ch new_state with
        | (st1, e2) => ({ state := st1, hw := hw1 }, e2)
    else (sys, some ("Invalid relay channel: " ++ ch))

/-- The value `process_command` returns: `{"status": "success",
"command": command}`, `{"status": "error", "message": msg}`, or — for
`get_state` — the raw state dict. -/
inductive Response where
  | success (cmd : Command)
  | error (msg : String)
  | state (snap : Snapshot)
  deriving DecidableEq

/-- The `"status"` field of a response dict, when present. -/
def responseStatus : Response → Option String
  | .success _ => some "success"
  | .error _ => some "error"
  | .state _ => none

/-- `CommandProcessor.process_command(command)`: the `try/except` makes
every raise inside a handler an error response, with mutations performed
before the raise kept. -/
def process_command (sys : Sys) (cmd : Command) : Response × Sys :=
  if cmd.type = some "set_dimmer" then
    match handle_dimmer_command sys cmd with
    | (sys1, none) => (.success cmd, sys1)
    | (sys1, some m) => (.error m, sys1)
  else if cmd.type = some "toggle_relay" then
    match handle_relay_command sys cmd with
    | (sys1, none) => (.success cmd, sys1)
    | (sys1, some m) => (.error m, sys1)
  else if cmd.type = some "get_state" then
    (.state (get_state sys.state), sys)
  else
    (.error "Unknown command type", sys)

/-! ### `InputScanner._scan_loop` (one successful iteration) -/

/-- One successful iteration of the scan loop, given the previously
accepted snapshot `prev` and the freshly read `cur`: when the dicts are
equal nothing happens; otherwise the debug change notifications are the
entries of `cur` whose previous value is absent or different, the whole
of `cur` is merged into `StateManager.input_states`, and `cur` becomes
the accepted snapshot.  Returns (notifications, state manager, prev). -/
def scan_step (prev cur : PyDict Bool) (st : StateManagerT) :
    List (String × Bool) × StateManagerT × PyDict Bool :=
  if pyDictEq cur prev then ([], st, prev)
  else
    let notifs := cur.filter (fun kv =>
      match dget? prev kv.1 with
      | none => true
      | some ps => ps != kv.2)
    (notifs, update_inputs st cur, cur)

/-! ### `KC868Application._on_mqtt_command` (`main.py`)

The payload handed to the callback is `ujson.loads(msg)` when `msg` is
valid JSON and the decoded string otherwise (`mqtt_manager._on_message`),
so it is a dict, a string, or another value that `int(...)` either
converts or rejects. -/

inductive MqttPayload where
  /-- A dict; `brightness` is its `int(...)`-converted brightness entry
  if present, `state` its `str(...)`-converted state entry if present. -/
  | obj (brightness : Option Int) (state : Option String)
  /-- A string payload. -/
  | strP (s : String)
  /-- A non-dict non-string payload that `int(...)` converts (JSON
  number or boolean). -/
  | intLike (n : Int)
  /-- A non-dict non-string payload on which `int(...)` raises (e.g.
  JSON `null` or a list). -/
  | unconvertible
  deriving DecidableEq

/-- The level-resolution block of the dimmer branch, lines 272–301 of
`main.py`.  `none` is Python `level = None` surviving to `int(level)`,
which raises `TypeError` and turns the whole command into a logged
no-op. -/
def resolve_dimmer_level : MqttPayload → Option Int
  | .obj b s =>
    let level := b
    match s with
    | none => level
    | some st =>
      if pyUpper st = "OFF" then some 0
      else if pyUpper st = "ON" ∧ level.isNone then some 100
      else level
  | .strP s =>
    if pyUpper s = "OFF" then some 0
    else if pyUpper s = "ON" then some 100
    else some ((pyInt? s).getD 0)
  | .intLike n => some n
  | .unconvertible => some 0

/-- `max(0, min(100, level))`. -/
def clamp100 (n : Int) : Int := max 0 (min 100 n)

/-- The dimmer branch of `_on_mqtt_command` for topic
`f"{base}/dimmer/{idx}/set"` (the MQTT state publish that follows a
successful application is not modelled). -/
def on_mqtt_dimmer (sys : Sys) (idx : Int) (payload : MqttPayload) : Sys :=
  let level? := resolve_dimmer_level payload
  if 0 ≤ idx ∧ idx ≤ 15 then
    match level? with
    | none => sys
    | some level => (set_dimmer_pair sys idx (pwmKey idx) (clamp100 level)).1
  else sys

/-- The relay branch of `_on_mqtt_command` for topic
`f"{base}/relay/{idx}/set"`. -/
def on_mqtt_relay (sys : Sys) (idx : Int) (payload : MqttPayload) : Sys :=
  let channel := relayKey idx
  if (dget? sys.state.relay_states channel).isSome then
    let desired : Bool :=
      match payload with
      | .strP s => pyUpper s == "ON"
      | .obj _ (some st) => pyUpper st == "ON"
      | _ => !((dget? sys.state.relay_states channel).getD false)
    match set_relay sys.hw channel desired with
    | (hw1, some _) => { sys with hw := hw1 }
    | (hw1, none) =>
      { state := (update_relay sys.state channel desired).1, hw := hw1 }
  else sys

/-! ### Operations touching relay state, for the shared-state invariant -/

/-- Any command-path operation of the running application: a direct
structured command, or an MQTT dimmer/relay command. -/
inductive SysOp where
  | direct (cmd : Command)
  | mqttDimmer (idx : Int) (payload : MqttPayload)
  | mqttRelay (idx : Int) (payload : MqttPayload)

def applySysOp (sys : Sys) : SysOp → Sys
  | .direct cmd => (process_command sys cmd).2
  | .mqttDimmer idx p => on_mqtt_dimmer sys idx p
  | .mqttRelay idx p => on_mqtt_relay sys idx p

/-- The two copies of relay state — `RelayController.states` and
`StateManager.relay_states` — agree (as Python dicts). -/
def relayAgree (sys : Sys) : Prop :=
  ∀ k, dget? sys.state.relay_states k = dget? sys.hw.relay_states k

/-- Every mutation a `StateManager` instance can undergo, for invariant
statements about its fields. -/
inductive StateOp where
  | dimmer (channel : String) (level : Int)
  | relay (relay_name : String) (state : Bool)
  | inputs (m : PyDict Bool)

def applyStateOp (st : StateManagerT) : StateOp → StateManagerT
  | .dimmer c l => (update_dimmer st c l).1
  | .relay r s => (update_relay st r s).1
  | .inputs m => update_inputs st m

/-! ### Spec-side reference definitions (for refinement comparisons) -/

/-- The duty value as the specification words it: `round(level*4095/100)`
with mathematical rounding over the exact quotient. -/
def specRoundDuty (level : Int) : Int := round ((level * 4095 : ℚ) / 100)

/-- The payload resolution order exactly as claim C2 states it: if the
object carries `brightness`, that brightness is used; **else** if the
object's or string's state is OFF, level 0; else if state is ON and no
brightness was given, level 100; else a bare numeric payload is parsed;
any unparsable payload defaults to level 0. -/
def spec_resolve_dimmer_level : MqttPayload → Int
  | .obj (some b) _ => b
  | .obj none s =>
    match s with
    | some st =>
      if pyUpper st = "OFF" then 0
      else if pyUpper st = "ON" then 100
      else 0
    | none => 0
  | .strP s =>
    if pyUpper s = "OFF" then 0
    else if pyUpper s = "ON" then 100
    else (pyInt? s).getD 0
  | .intLike n => n
  | .unconvertible => 0

/-- The payload resolution order as the code actually implements it
(amended claim C2): a dict `state` of OFF forces level 0 even when a
brightness is present; otherwise a present brightness wins; otherwise
state ON means 100; a dict providing neither yields no operation at all
(instead of level 0); strings and other payloads behave as claimed. -/
def amended_resolve_dimmer_level : MqttPayload → Option Int
  | .obj b s =>
    if s.map pyUpper = some "OFF" then some 0
    else if b.isSome then b
    else if s.map pyUpper = some "ON" then some 100
    else none
  | .strP s =>
    if pyUpper s = "OFF" then some 0
    else if pyUpper s = "ON" then some 100
    else some ((pyInt? s).getD 0)
  | .intLike n => some n
  | .unconvertible => some 0

/-- The structured toggle command `{type: "toggle_relay", channel: ch}`. -/
def toggleCmd (ch : String) : Command :=
  { type := some "toggle_relay", channel := some ch, value := none }

/-- System state after processing one structured toggle command. -/
def afterToggle (sys : Sys) (ch : String) : Sys :=
  (handle_relay_command sys (toggleCmd ch)).1

/-! ### Helper lemmas about the embedded operations -/

theorem clamp100_nonneg (n : Int) : 0 ≤ clamp100 n := le_max_left 0 _

theorem clamp100_le (n : Int) : clamp100 n ≤ 100 :=
  max_le (by norm_num) (min_le_left 100 n)

theorem clamp100_toNat_le (n : Int) : (clamp100 n).toNat ≤ 100 := by
  have h := clamp100_le n
  omega

theorem clamp100_of_range {n : Int} (h : 0 ≤ n ∧ n ≤ 100) : clamp100 n = n := by
  unfold clamp100
  omega

theorem pulse_le (n : Nat) (h : n ≤ 100) : n * 4095 / 100 ≤ 4095 := by
  omega

/-- Successful `set_level`: an in-range channel always writes, with the
duty derived from the clamped level. -/
theorem set_level_ok (hw : Hardware) (c v : Int) (hc : 0 ≤ c ∧ c ≤ 15) :
    set_level hw c v =
      ({ hw with pwm_on := Function.update hw.pwm_on c 0,
                 pwm_off := Function.update hw.pwm_off c
                   ((clamp100 v).toNat * 4095 / 100) }, none) := by
  have hb : (max 0 (min 100 v)).toNat * 4095 / 100 ≤ 4095 :=
    pulse_le _ (clamp100_toNat_le v)
  simp only [set_level, set_pwm, clamp100] at hb ⊢
  rw [if_pos hc, if_pos hc, if_pos ⟨by norm_num, hb⟩]

/-- Successful `update_dimmer`: an in-range level always stores. -/
theorem update_dimmer_ok (st : StateManagerT) (key : String) {v : Int}
    (hv : 0 ≤ v ∧ v ≤ 100) :
    update_dimmer st key v =
      ({ st with
          dimmer_levels := dset st.dimmer_levels key v,
          last_non_zero_levels :=
            if 0 < v then dset st.last_non_zero_levels key v
            else st.last_non_zero_levels }, none) := by
  rw [update_dimmer, if_pos hv]

/-- A fully valid `set_level` + `update_dimmer` pair. -/
theorem set_dimmer_pair_ok (sys : Sys) (c : Int) (key : String) {v : Int}
    (hc : 0 ≤ c ∧ c ≤ 15) (hv : 0 ≤ v ∧ v ≤ 100) :
    set_dimmer_pair sys c key v =
      ({ state := { sys.state with
            dimmer_levels := dset sys.state.dimmer_levels key v,
            last_non_zero_levels :=
              if 0 < v then dset sys.state.last_non_zero_levels key v
              else sys.state.last_non_zero_levels },
         hw := { sys.hw with
            pwm_on := Function.update sys.hw.pwm_on c 0,
            pwm_off := Function.update sys.hw.pwm_off c
              ((clamp100 v).toNat * 4095 / 100) } }, none) := by
  rw [set_dimmer_pair, set_level_ok sys.hw c v hc, update_dimmer_ok sys.state key hv]

/-! ### Claim C1 -/

/-- Claim C1 counterexample: a set-dimmer of level 1 on channel 1 writes
duty `int(1*4095/100) = 40` to the PCA9685, while the claimed
`round(1*4095/100)` is 41 — the code truncates, it does not round. -/
theorem duty_truncates_not_rounds_cex :
    (set_dimmer_pair initSys 1 (pwmKey 1) 1).1.hw.pwm_off 1 = 40 ∧
    specRoundDuty 1 = 41 := by
  constructor
  · decide
  · unfold specRoundDuty
    norm_num [round_eq]

/-- Claim C1 (amended): for every channel `c` in [0,15] and level in
[0,100], after the set-dimmer operation the snapshot reports
`dimmers[PWM{c}]` equal to the level and the PWM duty written to the
PCA9685 equals `level*4095/100` truncated (floor), bounded to [0,4095]. -/
theorem set_dimmer_snapshot_and_duty (sys : Sys) (c level : Int)
    (hc : 0 ≤ c ∧ c ≤ 15) (hl : 0 ≤ level ∧ level ≤ 100) :
    (set_dimmer_pair sys c (pwmKey c) level).2 = none ∧
    dget? (get_state (set_dimmer_pair sys c (pwmKey c) level).1.state).dimmers
      (pwmKey c) = some level ∧
    (set_dimmer_pair sys c (pwmKey c) level).1.hw.pwm_off c =
      level.toNat * 4095 / 100 ∧
    (set_dimmer_pair sys c (pwmKey c) level).1.hw.pwm_off c ≤ 4095 := by
  have hcl : clamp100 level = level := clamp100_of_range hl
  rw [set_dimmer_pair_ok sys c (pwmKey c) hc hl]
  refine ⟨rfl, ?_, ?_, ?_⟩
  · exact dget_dset_self _ _ _
  · simp [hcl, Function.update_same]
  · simp only [Function.update_same]
    exact pulse_le _ (by have := clamp100_toNat_le level; omega)

/-- Witness for `set_dimmer_snapshot_and_duty` at channel 3, level 42. -/
theorem set_dimmer_snapshot_and_duty_witness :
    (set_dimmer_pair initSys 3 (pwmKey 3) 42).2 = none ∧
    dget? (get_state (set_dimmer_pair initSys 3 (pwmKey 3) 42).1.state).dimmers
      (pwmKey 3) = some 42 ∧
    (set_dimmer_pair initSys 3 (pwmKey 3) 42).1.hw.pwm_off 3 =
      Int.toNat 42 * 4095 / 100 ∧
    (set_dimmer_pair initSys 3 (pwmKey 3) 42).1.hw.pwm_off 3 ≤ 4095 :=
  set_dimmer_snapshot_and_duty initSys 3 42 (by norm_num) (by norm_num)

/-! ### Claim C5 -/

/-- Claim C5 counterexample: at startup, `last_non_zero_levels` is *not*
all-zero — every entry is initialized to 100. -/
theorem init_last_nonzero_not_zero_cex :
    ¬ (∀ i : Fin 16,
        dget? initStateManager.last_non_zero_levels (pwmKey i.val) = some 0) := by
  decide

/-- Claim C5 (amended): at startup every dimmer level is 0, every entry
of `last_non_zero_levels` is 100 (not 0), both relays are off, and the
input map is empty. -/
theorem init_state_defaults :
    (∀ i : Fin 16,
      dget? initStateManager.dimmer_levels (pwmKey i.val) = some 0) ∧
    (∀ i : Fin 16,
      dget? initStateManager.last_non_zero_levels (pwmKey i.val) = some 100) ∧
    dget? initStateManager.relay_states "Relay1" = some false ∧
    dget? initStateManager.relay_states "Relay2" = some false ∧
    initStateManager.input_states = [] := by
  decide

/-! ### Claim C4 -/

/-- Claim C4 counterexample: a `get_state` command is answered with the
raw state snapshot dict, which carries no `status` field at all. -/
theorem get_state_response_lacks_status_cex :
    (process_command initSys
        { type := some "get_state", channel := none, value := none }).1
      = Response.state (get_state initStateManager) ∧
    responseStatus (process_command initSys
        { type := some "get_state", channel := none, value := none }).1
      = none := by
  constructor <;> rfl

/-- Claim C4 (amended): every `set_dimmer`, `toggle_relay` or
unknown-type command yields a structured response whose status is
`success` or `error` and no exception propagates (the handler is total);
a `get_state` command instead returns the raw state snapshot, which has
no status field. -/
theorem process_command_response_status (sys : Sys) (cmd : Command) :
    (cmd.type ≠ some "get_state" →
      responseStatus (process_command sys cmd).1 = some "success" ∨
      responseStatus (process_command sys cmd).1 = some "error") ∧
    (cmd.type = some "get_state" →
      (process_command sys cmd).1 = .state (get_state sys.state)) := by
  constructor
  · intro hne
    by_cases h1 : cmd.type = some "set_dimmer"
    · rcases hr : handle_dimmer_command sys cmd with ⟨sys1, e⟩
      cases e <;> simp [process_command, h1, hr, responseStatus]
    · by_cases h2 : cmd.type = some "toggle_relay"
      · rcases hr : handle_relay_command sys cmd with ⟨sys1, e⟩
        cases e <;> simp [process_command, h1, h2, hr, responseStatus]
      · simp [process_command, h1, h2, hne, responseStatus]
  · intro hg
    simp [process_command, hg, responseStatus]

/-- Witness for `process_command_response_status` at a bogus command type. -/
theorem process_command_response_status_witness :
    responseStatus (process_command initSys
        { type := some "bogus", channel := none, value := none }).1
      = some "success" ∨
    responseStatus (process_command initSys
        { type := some "bogus", channel := none, value := none }).1
      = some "error" :=
  (process_command_response_status initSys
      { type := some "bogus", channel := none, value := none }).1 (by decide)

/-! ### Claim C2 -/

/-- The code's resolution agrees with the amended description
(`amended_resolve_dimmer_level`) on every payload. -/
theorem resolve_eq_amended (p : MqttPayload) :
    resolve_dimmer_level p = amended_resolve_dimmer_level p := by
  rcases p with ⟨b, s⟩ | s | n | _
  · rcases b with _ | x <;> rcases s with _ | st
    · rfl
    · by_cases hoff : pyUpper st = "OFF"
      · simp [resolve_dimmer_level, amended_resolve_dimmer_level, hoff]
      · by_cases hon : pyUpper st = "ON" <;>
          simp [resolve_dimmer_level, amended_resolve_dimmer_level, hoff, hon]
    · rfl
    · by_cases hoff : pyUpper st = "OFF" <;>
        simp [resolve_dimmer_level, amended_resolve_dimmer_level, hoff]
  · rfl
  · rfl
  · rfl

/-- Claim C2 counterexample: for payload `{"brightness": 50, "state":
"OFF"}` the claimed resolution order gives level 50 (brightness first),
but the code lets `state == OFF` override the brightness and applies
level 0. -/
theorem mqtt_off_overrides_brightness_cex :
    resolve_dimmer_level (.obj (some 50) (some "OFF")) = some 0 ∧
    spec_resolve_dimmer_level (.obj (some 50) (some "OFF")) = 50 ∧
    dget? (on_mqtt_dimmer initSys 3
        (.obj (some 50) (some "OFF"))).state.dimmer_levels (pwmKey 3)
      = some 0 := by
  refine ⟨by decide, by decide, by decide⟩

/-- Claim C2 (amended): for an MQTT dimmer command with idx in [0,15]
the level is resolved per `amended_resolve_dimmer_level` (a dict state
of OFF overrides any brightness; else a present brightness wins; else
state ON means 100; a dict with neither is a no-op rather than level 0;
a bare OFF/ON or numeric string parses as claimed with unparsable
strings and other non-dict payloads defaulting to 0), and the resolved
level is clamped to [0,100] before being applied to hardware and state. -/
theorem mqtt_dimmer_resolution (sys : Sys) (idx : Int) (p : MqttPayload)
    (lv : Int) (hidx : 0 ≤ idx ∧ idx ≤ 15) :
    resolve_dimmer_level p = amended_resolve_dimmer_level p ∧
    (resolve_dimmer_level p = none → on_mqtt_dimmer sys idx p = sys) ∧
    (resolve_dimmer_level p = some lv →
      0 ≤ clamp100 lv ∧ clamp100 lv ≤ 100 ∧
      dget? (on_mqtt_dimmer sys idx p).state.dimmer_levels (pwmKey idx)
        = some (clamp100 lv) ∧
      (on_mqtt_dimmer sys idx p).hw.pwm_off idx
        = (clamp100 lv).toNat * 4095 / 100) := by
  refine ⟨resolve_eq_amended p, ?_, ?_⟩
  · intro h
    simp [on_mqtt_dimmer, h, hidx]
  · intro h
    have hcl : 0 ≤ clamp100 lv ∧ clamp100 lv ≤ 100 :=
      ⟨clamp100_nonneg lv, clamp100_le lv⟩
    have hap : on_mqtt_dimmer sys idx p
        = (set_dimmer_pair sys idx (pwmKey idx) (clamp100 lv)).1 := by
      simp [on_mqtt_dimmer, h, hidx]
    rw [hap, set_dimmer_pair_ok sys idx (pwmKey idx) hidx hcl]
    refine ⟨hcl.1, hcl.2, dget_dset_self _ _ _, ?_⟩
    simp [Function.update_same, clamp100_of_range hcl]

/-- Witness for `mqtt_dimmer_resolution` at payload `"ON"`, idx 3. -/
theorem mqtt_dimmer_resolution_witness :
    0 ≤ clamp100 100 ∧ clamp100 100 ≤ 100 ∧
    dget? (on_mqtt_dimmer initSys 3 (.strP "ON")).state.dimmer_levels
      (pwmKey 3) = some (clamp100 100) ∧
    (on_mqtt_dimmer initSys 3 (.strP "ON")).hw.pwm_off 3
      = (clamp100 100).toNat * 4095 / 100 :=
  (mqtt_dimmer_resolution initSys 3 (.strP "ON") 100 (by norm_num)).2.2
    (by decide)

/-! ### Claim C3 -/

/-- A dimmer channel value `_handle_dimmer_command` rejects: the parse
raises (missing / no `PWM` prefix / not an int) or the parsed number is
outside [0,15]. -/
def invalid_dimmer_channel (c : Option String) : Prop :=
  parse_channel_num c = none ∨
  ∃ n, parse_channel_num c = some n ∧ ¬(0 ≤ n ∧ n ≤ 15)

/-- Claim C3 counterexample: a set-dimmer with level 150 on channel
`PWM3` is rejected (error, state unchanged) but only *after* the
hardware was written with the clamped duty 4095 — the initial duty was
0, so a hardware mutation did occur before the rejection. -/
theorem dimmer_overrange_writes_hardware_cex :
    (handle_dimmer_command initSys
        { type := some "set_dimmer", channel := some "PWM3", value := some 150 }).2
      = some "Dimmer level must be between 0 and 100" ∧
    (handle_dimmer_command initSys
        { type := some "set_dimmer", channel := some "PWM3", value := some 150 }).1.state
      = initSys.state ∧
    (handle_dimmer_command initSys
        { type := some "set_dimmer", channel := some "PWM3", value := some 150 }).1.hw.pwm_off 3
      = 4095 ∧
    initSys.hw.pwm_off 3 = 0 := by
  refine ⟨by decide, by decide, by decide, rfl⟩

/-- Claim C3 (amended): an out-of-range *channel* is rejected before any
mutation (system unchanged, error reported).  An out-of-range *level* on
a valid channel is rejected with `DeviceState` unchanged and is not
retried, but the hardware has already been written with the level
clamped to [0,100] before the rejection happens. -/
theorem dimmer_invalid_rejection :
    (∀ (sys : Sys) (cmd : Command), invalid_dimmer_channel cmd.channel →
      (handle_dimmer_command sys cmd).1 = sys ∧
      (handle_dimmer_command sys cmd).2.isSome) ∧
    (∀ (sys : Sys) (ch : String) (n value : Int),
      parse_channel_num (some ch) = some n → 0 ≤ n ∧ n ≤ 15 →
      ¬(0 ≤ value ∧ value ≤ 100) →
      (handle_dimmer_command sys
          { type := some "set_dimmer", channel := some ch, value := some value }).2
        = some "Dimmer level must be between 0 and 100" ∧
      (handle_dimmer_command sys
          { type := some "set_dimmer", channel := some ch, value := some value }).1.state
        = sys.state ∧
      (handle_dimmer_command sys
          { type := some "set_dimmer", channel := some ch, value := some value }).1.hw.pwm_off n
        = (clamp100 value).toNat * 4095 / 100) := by
  constructor
  · intro sys cmd h
    rcases h with h | ⟨n, hn, hrange⟩
    · simp [handle_dimmer_command, h]
    · simp [handle_dimmer_command, hn, hrange]
  · intro sys ch n value hp hr hv
    have h1 : handle_dimmer_command sys
        { type := some "set_dimmer", channel := some ch, value := some value }
        = set_dimmer_pair sys n ch value := by
      simp [handle_dimmer_command, hp, hr]
    rw [h1, set_dimmer_pair, set_level_ok sys.hw n value hr,
        update_dimmer, if_neg hv]
    exact ⟨rfl, rfl, by simp [Function.update_same]⟩

/-- Witness for `dimmer_invalid_rejection`: channel `PWM99` is rejected
without mutation; level 150 on `PWM3` is rejected after a clamped
hardware write. -/
theorem dimmer_invalid_rejection_witness :
    ((handle_dimmer_command initSys
        { type := some "set_dimmer", channel := some "PWM99", value := some 50 }).1
       = initSys ∧
     (handle_dimmer_command initSys
        { type := some "set_dimmer", channel := some "PWM99", value := some 50 }).2.isSome) ∧
    ((handle_dimmer_command initSys
        { type := some "set_dimmer", channel := some "PWM3", value := some 150 }).2
       = some "Dimmer level must be between 0 and 100" ∧
     (handle_dimmer_command initSys
        { type := some "set_dimmer", channel := some "PWM3", value := some 150 }).1.state
       = initSys.state ∧
     (handle_dimmer_command initSys
        { type := some "set_dimmer", channel := some "PWM3", value := some 150 }).1.hw.pwm_off 3
       = (clamp100 150).toNat * 4095 / 100) :=
  ⟨dimmer_invalid_rejection.1 initSys
      { type := some "set_dimmer", channel := some "PWM99", value := some 50 }
      (Or.inr ⟨99, by decide, by decide⟩),
   dimmer_invalid_rejection.2 initSys "PWM3" 3 150 (by decide) (by decide)
      (by decide)⟩

/-! ### Claim C6 -/

/-- Claim C6: in a scan iteration, an unchanged snapshot emits no change
notifications; a changed snapshot emits a notification for exactly the
entries whose value differs from (or is absent in) the previous accepted
snapshot, and the *entire* new snapshot is merged into the state
manager's `input_states` (entries absent from the snapshot keep their
old value). -/
theorem scan_step_diffing (prev cur : PyDict Bool) (st : StateManagerT)
    (hnd : (cur.map Prod.fst).Nodup) (k : String) (v : Bool) :
    (pyDictEq cur prev = true → scan_step prev cur st = ([], st, prev)) ∧
    (pyDictEq cur prev = false →
      ((k, v) ∈ (scan_step prev cur st).1 ↔
        ((k, v) ∈ cur ∧ dget? prev k ≠ some v)) ∧
      (dget? cur k = some v →
        dget? (scan_step prev cur st).2.1.input_states k = some v) ∧
      (dget? cur k = none →
        dget? (scan_step prev cur st).2.1.input_states k
          = dget? st.input_states k)) := by
  constructor
  · intro h
    simp [scan_step, h]
  · intro h
    have hs : scan_step prev cur st =
        (cur.filter (fun kv => match dget? prev kv.1 with
            | none => true
            | some ps => ps != kv.2),
         update_inputs st cur, cur) := by
      simp [scan_step, h]
    rw [hs]
    refine ⟨?_, ?_, ?_⟩
    · rw [List.mem_filter]
      have hpred : ((fun (kv : String × Bool) => match dget? prev kv.1 with
          | none => true
          | some ps => ps != kv.2) (k, v) = true) ↔ dget? prev k ≠ some v := by
        rcases hd : dget? prev k with _ | ps
        · simp [hd]
        · simp [hd, bne_iff_ne]
      rw [hpred]
    · intro hc
      show dget? (dupdate st.input_states cur) k = some v
      rw [dget_dupdate _ _ hnd, hc]
      rfl
    · intro hc
      show dget? (dupdate st.input_states cur) k = dget? st.input_states k
      rw [dget_dupdate _ _ hnd, hc]
      rfl

/-- Witness for `scan_step_diffing` on a differing two-entry snapshot. -/
theorem scan_step_diffing_witness :
    (("X01", true) ∈
        (scan_step [("X01", false)] [("X01", true), ("X02", false)]
          initStateManager).1 ↔
      (("X01", true) ∈ ([("X01", true), ("X02", false)] : PyDict Bool) ∧
        dget? [("X01", false)] "X01" ≠ some true)) ∧
    (dget? [("X01", true), ("X02", false)] "X01" = some true →
      dget? (scan_step [("X01", false)] [("X01", true), ("X02", false)]
          initStateManager).2.1.input_states "X01" = some true) ∧
    (dget? [("X01", true), ("X02", false)] "X01" = none →
      dget? (scan_step [("X01", false)] [("X01", true), ("X02", false)]
          initStateManager).2.1.input_states "X01"
        = dget? initStateManager.input_states "X01") :=
  (scan_step_diffing [("X01", false)] [("X01", true), ("X02", false)]
      initStateManager (by decide) "X01" true).2 (by decide)

/-! ### Claim C7 -/

/-- Claim C7: `last_non_zero_levels[k]` changes only under a successful
`update_dimmer` on channel `k` with a level in (0,100], which also sets
`dimmer_levels[k]` to that level; in particular a write of level 0
leaves `last_non_zero_levels` untouched. -/
theorem last_nonzero_only_positive_write (st : StateManagerT)
    (op : StateOp) (k : String) :
    (dget? (applyStateOp st op).last_non_zero_levels k
        ≠ dget? st.last_non_zero_levels k →
      (match op with
       | .dimmer c level => c = k ∧ 0 < level ∧ level ≤ 100 ∧
           (update_dimmer st c level).2 = none ∧
           dget? (applyStateOp st op).dimmer_levels k = some level ∧
           dget? (applyStateOp st op).last_non_zero_levels k = some level
       | .relay _ _ => False
       | .inputs _ => False)) ∧
    (update_dimmer st k 0).1.last_non_zero_levels
      = st.last_non_zero_levels := by
  constructor
  · intro hchg
    cases op with
    | dimmer c l =>
      by_cases hr : 0 ≤ l ∧ l ≤ 100
      · by_cases hpos : 0 < l
        · have happ : applyStateOp st (.dimmer c l) = { st with
              dimmer_levels := dset st.dimmer_levels c l,
              last_non_zero_levels := dset st.last_non_zero_levels c l } := by
            simp [applyStateOp, update_dimmer_ok st c hr, hpos]
          have hk : c = k := by
            by_contra hne
            rw [happ] at hchg
            exact hchg (dget_dset_of_ne _ (fun e => hne e.symm) l)
          subst hk
          rw [happ]
          exact ⟨rfl, hpos, hr.2, by rw [update_dimmer_ok st c hr],
            dget_dset_self _ _ _, dget_dset_self _ _ _⟩
        · exfalso
          apply hchg
          simp [applyStateOp, update_dimmer_ok st c hr, hpos]
      · exfalso
        apply hchg
        simp [applyStateOp, update_dimmer, hr]
    | relay r s =>
      exfalso
      apply hchg
      by_cases hm : (dget? st.relay_states r).isSome <;>
        simp [applyStateOp, update_relay, hm]
    | inputs m =>
      exact absurd rfl hchg
  · simp [update_dimmer]

/-- Witness for `last_nonzero_only_positive_write`: a write of 50 to
`PWM0` does change `last_non_zero_levels` (from the initial 100). -/
theorem last_nonzero_only_positive_write_witness :
    ("PWM0" = "PWM0" ∧ 0 < (50 : Int) ∧ (50 : Int) ≤ 100 ∧
      (update_dimmer initStateManager "PWM0" 50).2 = none ∧
      dget? (applyStateOp initStateManager
          (.dimmer "PWM0" 50)).dimmer_levels "PWM0" = some 50 ∧
      dget? (applyStateOp initStateManager
          (.dimmer "PWM0" 50)).last_non_zero_levels "PWM0" = some 50) ∧
    (update_dimmer initStateManager "PWM0" 0).1.last_non_zero_levels
      = initStateManager.last_non_zero_levels :=
  ⟨(last_nonzero_only_positive_write initStateManager
      (.dimmer "PWM0" 50) "PWM0").1 (by decide),
   (last_nonzero_only_positive_write initStateManager
      (.dimmer "PWM0" 50) "PWM0").2⟩

/-! ### Claim C8 -/

theorem dget_append {α : Type} (l1 l2 : PyDict α) (k : String) :
    dget? (l1 ++ l2) k =
      match dget? l1 k with
      | some v => some v
      | none => dget? l2 k := by
  induction l1 with
  | nil => simp [dget?]
  | cons hd rest ih =>
    obtain ⟨k', v'⟩ := hd
    by_cases h : k' = k <;> simp [dget?, h, ih]

theorem dget_range_map_none {α : Type} (n : Nat) (g : Nat → String)
    (f : Nat → α) (k : String) (hk : ∀ a, a < n → g a ≠ k) :
    dget? ((List.range n).map (fun i => (g i, f i))) k = none := by
  apply dget_eq_none_of_not_mem
  intro hmem
  simp only [List.map_map, List.mem_map, Function.comp, List.mem_range] at hmem
  obtain ⟨a, ha, hga⟩ := hmem
  exact hk a ha hga

theorem dget_range_map {α : Type} (n : Nat) (g : Nat → String) (f : Nat → α)
    (hinj : ∀ a, a < n → ∀ b, b < n → g a = g b → a = b)
    (j : Nat) (hj : j < n) :
    dget? ((List.range n).map (fun i => (g i, f i))) (g j) = some (f j) := by
  induction n with
  | zero => omega
  | succ m ih =>
    rw [List.range_succ, List.map_append, dget_append]
    by_cases hjm : j < m
    · rw [ih (fun a ha b hb => hinj a (by omega) b (by omega)) hjm]
    · have hj' : j = m := by omega
      subst hj'
      rw [dget_range_map_none j g f (g j)
        (fun a ha hga => by have := hinj a (by omega) j (by omega) hga; omega)]
      simp [dget?]

theorem and_shift_bne (d i : Nat) :
    ((d &&& (1 <<< i)) != 0) = d.testBit i := by
  have h1 : (1 : Nat) <<< i = 2 ^ i := by
    rw [Nat.shiftLeft_eq, one_mul]
  rw [h1]
  cases hb : d.testBit i with
  | false =>
    have h2 := Nat.and_two_pow d i
    rw [hb] at h2
    simp only [Bool.toNat_false, zero_mul] at h2
    simp [h2]
  | true =>
    have h2 := Nat.and_two_pow d i
    rw [hb] at h2
    simp only [Bool.toNat_true, one_mul] at h2
    have hp : (2 : Nat) ^ i ≠ 0 := by positivity
    simp [h2, bne_iff_ne, hp]

/-- Claim C8: for every input line X01..X16, with both expanders valid
and returning bytes `d1`, `d2`, the reported boolean is the inversion of
the physical bit: bit value 0 is reported as `true`, bit value 1 as
`false`. -/
theorem input_states_active_low (d1 d2 : Nat) (i : Fin 8) :
    dget? (get_input_states true (some d1) true (some d2)) (xKey (i.val + 1))
      = some (!d1.testBit i.val) ∧
    dget? (get_input_states true (some d1) true (some d2)) (xKey (i.val + 9))
      = some (!d2.testBit i.val) := by
  have hinj1 : ∀ a, a < 8 → ∀ b, b < 8 → xKey (a + 1) = xKey (b + 1) → a = b := by
    decide
  have hinj9 : ∀ a, a < 8 → ∀ b, b < 8 → xKey (a + 9) = xKey (b + 9) → a = b := by
    decide
  have hne19 : ∀ a, a < 8 → ∀ b, b < 8 → xKey (a + 1) ≠ xKey (b + 9) := by
    decide
  have e : get_input_states true (some d1) true (some d2)
      = (List.range 8).map (fun t => (xKey (t + 1), !(d1 &&& (1 <<< t) != 0)))
        ++ (List.range 8).map (fun t => (xKey (t + 9), !(d2 &&& (1 <<< t) != 0))) := rfl
  constructor
  · rw [e, dget_append]
    have h1 := dget_range_map 8 (fun t => xKey (t + 1))
      (fun t => !(d1 &&& (1 <<< t) != 0)) hinj1 i.val i.isLt
    simp only [] at h1
    rw [h1]
    dsimp only []
    rw [and_shift_bne]
  · rw [e, dget_append]
    have h0 := dget_range_map_none 8 (fun t => xKey (t + 1))
      (fun t => !(d1 &&& (1 <<< t) != 0)) (xKey (i.val + 9))
      (fun a ha => hne19 a ha i.val i.isLt)
    simp only [] at h0
    rw [h0]
    dsimp only []
    have h2 := dget_range_map 8 (fun t => xKey (t + 9))
      (fun t => !(d2 &&& (1 <<< t) != 0)) hinj9 i.val i.isLt
    simp only [] at h2
    rw [h2]
    rw [and_shift_bne]

/-! ### Claim C9 -/

/-- Successful `set_relay` on a known relay name. -/
theorem set_relay_ok (hw : Hardware) (ch : String) (d : Bool)
    (hm : (dget? hw.relay_states ch).isSome = true) :
    set_relay hw ch d =
      ({ hw with
          relay1_pin := if ch = "Relay1" then (if d then 1 else 0)
            else hw.relay1_pin,
          relay2_pin := if ch = "Relay2" then (if d then 1 else 0)
            else hw.relay2_pin,
          relay_states := dset hw.relay_states ch d }, none) := by
  rw [set_relay, if_pos hm]

/-- Successful `update_relay` on a known relay name. -/
theorem update_relay_ok (st : StateManagerT) (ch : String) (d : Bool)
    (hm : (dget? st.relay_states ch).isSome = true) :
    update_relay st ch d =
      ({ st with relay_states := dset st.relay_states ch d }, none) := by
  rw [update_relay, if_pos hm]

/-- One structured toggle command on a known relay: the full resulting
system state, plus the value `toggle_relay` returned. -/
theorem handle_relay_toggle (sys : Sys) (ch : String) (b : Bool)
    (hhw : dget? sys.hw.relay_states ch = some b)
    (hst : (dget? sys.state.relay_states ch).isSome = true) :
    afterToggle sys ch =
      { state := { sys.state with
          relay_states := dset sys.state.relay_states ch (!b) },
        hw := { sys.hw with
          relay1_pin := if ch = "Relay1" then (if (!b) then 1 else 0)
            else sys.hw.relay1_pin,
          relay2_pin := if ch = "Relay2" then (if (!b) then 1 else 0)
            else sys.hw.relay2_pin,
          relay_states := dset sys.hw.relay_states ch (!b) } } ∧
    (toggle_relay sys.hw ch).2 = .ok (!b) := by
  have hmhw : (dget? sys.hw.relay_states ch).isSome = true := by
    rw [hhw]
    rfl
  have htog : toggle_relay sys.hw ch
      = ({ sys.hw with
            relay1_pin := if ch = "Relay1" then (if (!b) then 1 else 0)
              else sys.hw.relay1_pin,
            relay2_pin := if ch = "Relay2" then (if (!b) then 1 else 0)
              else sys.hw.relay2_pin,
            relay_states := dset sys.hw.relay_states ch (!b) }, .ok (!b)) := by
    simp only [toggle_relay, hhw, set_relay_ok sys.hw ch (!b) hmhw]
  constructor
  · unfold afterToggle handle_relay_command toggleCmd
    simp only [htog, hst, if_true, update_relay_ok sys.state ch (!b) hst]
  · rw [htog]

/-- Claim C9: toggling a relay twice returns it (controller state and
`DeviceState`) to the original state, the two toggles return negated
values, and afterwards `DeviceState` matches the relay controller. -/
theorem toggle_twice_roundtrip (sys : Sys) (ch : String) (b : Bool)
    (hhw : dget? sys.hw.relay_states ch = some b)
    (hst : (dget? sys.state.relay_states ch).isSome = true) :
    (toggle_relay sys.hw ch).2 = .ok (!b) ∧
    (toggle_relay (afterToggle sys ch).hw ch).2 = .ok b ∧
    dget? (afterToggle (afterToggle sys ch) ch).hw.relay_states ch = some b ∧
    dget? (afterToggle (afterToggle sys ch) ch).state.relay_states ch = some b ∧
    dget? (afterToggle (afterToggle sys ch) ch).state.relay_states ch
      = dget? (afterToggle (afterToggle sys ch) ch).hw.relay_states ch := by
  obtain ⟨h1, ht1⟩ := handle_relay_toggle sys ch b hhw hst
  have hhw1 : dget? (afterToggle sys ch).hw.relay_states ch = some (!b) := by
    rw [h1]
    exact dget_dset_self _ _ _
  have hst1 : (dget? (afterToggle sys ch).state.relay_states ch).isSome = true := by
    rw [h1]
    show (dget? (dset sys.state.relay_states ch (!b)) ch).isSome = true
    rw [dget_dset_self]
    rfl
  obtain ⟨h2, ht2⟩ := handle_relay_toggle (afterToggle sys ch) ch (!b) hhw1 hst1
  refine ⟨ht1, ?_, ?_, ?_, ?_⟩
  · rw [ht2, Bool.not_not]
  · rw [h2]
    show dget? (dset (afterToggle sys ch).hw.relay_states ch (!!b)) ch = some b
    rw [dget_dset_self, Bool.not_not]
  · rw [h2]
    show dget? (dset (afterToggle sys ch).state.relay_states ch (!!b)) ch = some b
    rw [dget_dset_self, Bool.not_not]
  · rw [h2]
    show dget? (dset (afterToggle sys ch).state.relay_states ch (!!b)) ch
      = dget? (dset (afterToggle sys ch).hw.relay_states ch (!!b)) ch
    rw [dget_dset_self, dget_dset_self]

/-- Witness for `toggle_twice_roundtrip` on `Relay1` from startup. -/
theorem toggle_twice_roundtrip_witness :
    (toggle_relay initSys.hw "Relay1").2 = .ok (!false) ∧
    (toggle_relay (afterToggle initSys "Relay1").hw "Relay1").2 = .ok false ∧
    dget? (afterToggle (afterToggle initSys "Relay1")
        "Relay1").hw.relay_states "Relay1" = some false ∧
    dget? (afterToggle (afterToggle initSys "Relay1")
        "Relay1").state.relay_states "Relay1" = some false ∧
    dget? (afterToggle (afterToggle initSys "Relay1")
        "Relay1").state.relay_states "Relay1"
      = dget? (afterToggle (afterToggle initSys "Relay1")
          "Relay1").hw.relay_states "Relay1" :=
  toggle_twice_roundtrip initSys "Relay1" false (by decide) (by decide)

/-! ### Claim C10 -/

theorem agree_after_set_both {st_rs hw_rs : PyDict Bool}
    (h : ∀ k, dget? st_rs k = dget? hw_rs k) (ch : String) (v : Bool)
    (k : String) : dget? (dset st_rs ch v) k = dget? (dset hw_rs ch v) k := by
  by_cases hk : k = ch
  · subst hk
    rw [dget_dset_self, dget_dset_self]
  · rw [dget_dset_of_ne _ hk v, dget_dset_of_ne _ hk v]
    exact h k

theorem update_dimmer_relay_states (st : StateManagerT) (key : String)
    (v : Int) : (update_dimmer st key v).1.relay_states = st.relay_states := by
  unfold update_dimmer
  split_ifs <;> rfl

theorem set_level_relay_states (hw : Hardware) (c v : Int) :
    (set_level hw c v).1.relay_states = hw.relay_states := by
  unfold set_level set_pwm
  dsimp only []
  split_ifs <;> rfl

theorem set_dimmer_pair_relay_states (sys : Sys) (c : Int) (key : String)
    (v : Int) :
    (set_dimmer_pair sys c key v).1.state.relay_states
      = sys.state.relay_states ∧
    (set_dimmer_pair sys c key v).1.hw.relay_states
      = sys.hw.relay_states := by
  unfold set_dimmer_pair
  rcases hsl : set_level sys.hw c v with ⟨hw1, e1⟩
  have hw1eq : hw1.relay_states = sys.hw.relay_states := by
    have := set_level_relay_states sys.hw c v
    rw [hsl] at this
    exact this
  cases e1 with
  | none =>
    rcases hud : update_dimmer sys.state key v with ⟨st1, e2⟩
    have st1eq : st1.relay_states = sys.state.relay_states := by
      have := update_dimmer_relay_states sys.state key v
      rw [hud] at this
      exact this
    simp [hsl, hud, st1eq, hw1eq]
  | some m => simp [hsl, hw1eq]

theorem handle_dimmer_relay_states (sys : Sys) (cmd : Command) :
    (handle_dimmer_command sys cmd).1.state.relay_states
      = sys.state.relay_states ∧
    (handle_dimmer_command sys cmd).1.hw.relay_states
      = sys.hw.relay_states := by
  unfold handle_dimmer_command
  cases hp : parse_channel_num cmd.channel with
  | none => exact ⟨rfl, rfl⟩
  | some n =>
    dsimp only []
    by_cases hr : 0 ≤ n ∧ n ≤ 15
    · rw [if_pos hr]
      exact set_dimmer_pair_relay_states sys n (cmd.channel.getD "")
        (cmd.value.getD 0)
    · rw [if_neg hr]
      exact ⟨rfl, rfl⟩

theorem relayAgree_handle_relay (sys : Sys) (cmd : Command)
    (h : relayAgree sys) : relayAgree (handle_relay_command sys cmd).1 := by
  unfold handle_relay_command
  cases hch : cmd.channel with
  | none => exact h
  | some ch =>
    by_cases hm : (dget? sys.state.relay_states ch).isSome = true
    · have hmhw : (dget? sys.hw.relay_states ch).isSome = true := by
        rw [← h]
        exact hm
      obtain ⟨cur, hcur⟩ := Option.isSome_iff_exists.mp hmhw
      have htog : toggle_relay sys.hw ch
          = ({ sys.hw with
                relay1_pin := if ch = "Relay1" then (if (!cur) then 1 else 0)
                  else sys.hw.relay1_pin,
                relay2_pin := if ch = "Relay2" then (if (!cur) then 1 else 0)
                  else sys.hw.relay2_pin,
                relay_states := dset sys.hw.relay_states ch (!cur) },
             .ok (!cur)) := by
        simp only [toggle_relay, hcur, set_relay_ok sys.hw ch (!cur) hmhw]
      dsimp only []
      rw [if_pos hm, htog]
      dsimp only []
      rw [update_relay_ok sys.state ch (!cur) hm]
      intro k
      exact agree_after_set_both h ch (!cur) k
    · dsimp only []
      rw [if_neg hm]
      exact h

theorem relayAgree_process (sys : Sys) (cmd : Command) (h : relayAgree sys) :
    relayAgree (process_command sys cmd).2 := by
  unfold process_command
  by_cases h1 : cmd.type = some "set_dimmer"
  · rw [if_pos h1]
    have hrel := handle_dimmer_relay_states sys cmd
    rcases hr : handle_dimmer_command sys cmd with ⟨sys1, e⟩
    rw [hr] at hrel
    cases e <;> dsimp only [] <;>
      exact fun k => by rw [hrel.1, hrel.2]; exact h k
  · rw [if_neg h1]
    by_cases h2 : cmd.type = some "toggle_relay"
    · rw [if_pos h2]
      have hrel := relayAgree_handle_relay sys cmd h
      rcases hr : handle_relay_command sys cmd with ⟨sys1, e⟩
      rw [hr] at hrel
      cases e <;> exact hrel
    · rw [if_neg h2]
      by_cases h3 : cmd.type = some "get_state"
      · rw [if_pos h3]
        exact h
      · rw [if_neg h3]
        exact h

theorem relayAgree_on_mqtt_dimmer (sys : Sys) (idx : Int) (p : MqttPayload)
    (h : relayAgree sys) : relayAgree (on_mqtt_dimmer sys idx p) := by
  unfold on_mqtt_dimmer
  by_cases hidx : 0 ≤ idx ∧ idx ≤ 15
  · rw [if_pos hidx]
    cases hres : resolve_dimmer_level p with
    | none => exact h
    | some lv =>
      have hrel := set_dimmer_pair_relay_states sys idx (pwmKey idx)
        (clamp100 lv)
      intro k
      rw [hrel.1, hrel.2]
      exact h k
  · rw [if_neg hidx]
    exact h

theorem relayAgree_on_mqtt_relay (sys : Sys) (idx : Int) (p : MqttPayload)
    (h : relayAgree sys) : relayAgree (on_mqtt_relay sys idx p) := by
  unfold on_mqtt_relay
  by_cases hm : (dget? sys.state.relay_states (relayKey idx)).isSome = true
  · have hmhw : (dget? sys.hw.relay_states (relayKey idx)).isSome = true := by
      rw [← h]
      exact hm
    rw [if_pos hm]
    dsimp only []
    rw [set_relay_ok _ _ _ hmhw]
    dsimp only []
    rw [update_relay_ok _ _ _ hm]
    intro k
    exact agree_after_set_both h _ _ k
  · rw [if_neg hm]
    exact h

theorem relayAgree_step (sys : Sys) (op : SysOp) (h : relayAgree sys) :
    relayAgree (applySysOp sys op) := by
  cases op with
  | direct cmd => exact relayAgree_process sys cmd h
  | mqttDimmer idx p => exact relayAgree_on_mqtt_dimmer sys idx p h
  | mqttRelay idx p => exact relayAgree_on_mqtt_relay sys idx p h

/-- Claim C10: starting from both relay-state copies initialized all-off,
every sequence of command-path operations (direct structured commands and
MQTT dimmer/relay commands) preserves agreement between
`RelayController.states` and `StateManager.relay_states`. -/
theorem relay_state_copies_agree (ops : List SysOp) :
    relayAgree (ops.foldl applySysOp initSys) := by
  have hgen : ∀ sys, relayAgree sys → relayAgree (ops.foldl applySysOp sys) := by
    induction ops with
    | nil => exact fun sys h => h
    | cons op rest ih =>
      intro sys h
      rw [List.foldl_cons]
      exact ih _ (relayAgree_step sys op h)
  exact hgen initSys (fun k => rfl)

end KC868
